import Mathlib

/-!
# Verification of the wild linker's core argument-parsing, relocation
# classification and output-validation logic

This development is a shallow embedding, in Lean 4, of three source files of
the `wild` linker:

* `wild_lib/src/elf.rs` — format-model constants and the x86-64 relocation
  classifier `RelocationKindInfo::from_raw`;
* `wild_lib/src/args.rs` — the hand-written command-line parser `Args::parse`
  and the derived policies `base_address`, `tls_mode`, `is_relocatable`;
* `wild_lib/src/validation.rs` — the post-link GOT Validator
  (`validate_object` / `validate_resolution`).

Machine integers (`u32`, `u64`, `usize`) are embedded as `Nat`, with explicit
wrap-around (`% 2 ^ 64`) where the Rust code can wrap.  Rust `&str` values are
embedded as `List Char`; `Result<T>` becomes `Except String T` (or an explicit
error inductive where the error structure matters).  Ambient effects that the
source reads (the `WILD_VALIDATE_OUTPUT` environment variable,
`available_parallelism()`) are passed in as explicit parameters; the
`SaveDir` input-snapshotting side channel performs no state changes relevant
to the parsed arguments and is embedded as a no-op.
-/

namespace Wild

/-! ## Format model (`elf.rs`) -/

/-- `elf.rs`: our starting address in memory when linking non-relocatable
executables (`NON_PIE_START_MEM_ADDRESS`), 0x400_000. -/
def NON_PIE_START_MEM_ADDRESS : Nat := 0x400000

/-- `elf.rs`: semantic relocation kinds produced by the classifier. -/
inductive RelocationKind where
  | Absolute
  | Relative
  | Got
  | PltRelative
  | GotRelative
  | TlsGd
  | TlsLd
  | DtpOff
  | GotTpOff
  | TpOff
  | None
  deriving DecidableEq, Repr

/-- `elf.rs`: classification result for one relocation-type code. -/
structure RelocationKindInfo where
  kind : RelocationKind
  byte_size : Nat
  deriving DecidableEq, Repr

/-- x86-64 relocation type codes from the `object` crate (`object::elf`). -/
def R_X86_64_NONE : Nat := 0
def R_X86_64_64 : Nat := 1
def R_X86_64_PC32 : Nat := 2
def R_X86_64_GOT32 : Nat := 3
def R_X86_64_PLT32 : Nat := 4
def R_X86_64_GOTPCREL : Nat := 9
def R_X86_64_32 : Nat := 10
def R_X86_64_32S : Nat := 11
def R_X86_64_16 : Nat := 12
def R_X86_64_PC16 : Nat := 13
def R_X86_64_8 : Nat := 14
def R_X86_64_PC8 : Nat := 15
def R_X86_64_TLSGD : Nat := 19
def R_X86_64_TLSLD : Nat := 20
def R_X86_64_DTPOFF32 : Nat := 21
def R_X86_64_GOTTPOFF : Nat := 22
def R_X86_64_TPOFF32 : Nat := 23
def R_X86_64_GOTPCRELX : Nat := 41
def R_X86_64_REX_GOTPCRELX : Nat := 42

/-- `elf.rs` `RelocationKindInfo::from_raw`: maps a raw x86-64 relocation-type
code to its semantic kind and byte width, or fails naming the code.  The Rust
`match` arms are rendered, in source order, as an equality chain. -/
def RelocationKindInfo.from_raw (r_type : Nat) : Except String RelocationKindInfo :=
  if r_type = R_X86_64_64 then .ok ⟨.Absolute, 8⟩
  else if r_type = R_X86_64_PC32 then .ok ⟨.Relative, 4⟩
  else if r_type = R_X86_64_GOT32 then .ok ⟨.Got, 4⟩
  else if r_type = R_X86_64_PLT32 then .ok ⟨.PltRelative, 4⟩
  else if r_type = R_X86_64_GOTPCREL then .ok ⟨.GotRelative, 4⟩
  else if r_type = R_X86_64_32 ∨ r_type = R_X86_64_32S then .ok ⟨.Absolute, 4⟩
  else if r_type = R_X86_64_16 then .ok ⟨.Absolute, 2⟩
  else if r_type = R_X86_64_PC16 then .ok ⟨.Relative, 2⟩
  else if r_type = R_X86_64_8 then .ok ⟨.Absolute, 1⟩
  else if r_type = R_X86_64_PC8 then .ok ⟨.Relative, 1⟩
  else if r_type = R_X86_64_TLSGD then .ok ⟨.TlsGd, 4⟩
  else if r_type = R_X86_64_TLSLD then .ok ⟨.TlsLd, 4⟩
  else if r_type = R_X86_64_DTPOFF32 then .ok ⟨.DtpOff, 4⟩
  else if r_type = R_X86_64_GOTTPOFF then .ok ⟨.GotTpOff, 4⟩
  else if r_type = R_X86_64_GOTPCRELX ∨ r_type = R_X86_64_REX_GOTPCRELX then
    .ok ⟨.GotRelative, 4⟩
  else if r_type = R_X86_64_TPOFF32 then .ok ⟨.TpOff, 4⟩
  else if r_type = R_X86_64_NONE then .ok ⟨.None, 0⟩
  else .error ("Unsupported relocation type " ++ toString r_type)

/-- The set of relocation-type codes appearing in the supported table of
`RelocationKindInfo::from_raw`. -/
def supportedRelocationTypes : List Nat :=
  [R_X86_64_NONE, R_X86_64_64, R_X86_64_PC32, R_X86_64_GOT32, R_X86_64_PLT32,
   R_X86_64_GOTPCREL, R_X86_64_32, R_X86_64_32S, R_X86_64_16, R_X86_64_PC16,
   R_X86_64_8, R_X86_64_PC8, R_X86_64_TLSGD, R_X86_64_TLSLD, R_X86_64_DTPOFF32,
   R_X86_64_GOTTPOFF, R_X86_64_TPOFF32, R_X86_64_GOTPCRELX, R_X86_64_REX_GOTPCRELX]

/-! ## Argument parsing (`args.rs`)

Arguments (Rust `&str`) are embedded as `List Char`.  `p.isPrefixOf s` /
`s.strip_prefix(p)` / `s.starts_with(p)` are embedded by `isPrefixChars` /
`stripPrefixChars` below. -/

/-- Character-list version of `str::starts_with`. -/
def isPrefixChars (p s : List Char) : Bool :=
  match p with
  | [] => true
  | a :: as =>
    match s with
    | [] => false
    | b :: bs => (a == b) && isPrefixChars as bs

/-- Character-list version of `str::strip_prefix`. -/
def stripPrefixChars (p s : List Char) : Option (List Char) :=
  if isPrefixChars p s then some (s.drop p.length) else none

/-- `str::parse::<usize>`: digit strings only.  (The Rust parser additionally
accepts a leading `+`, and rejects values above `usize::MAX`; no claim depends
on either edge.) -/
def parseNat? (s : List Char) : Option Nat :=
  if s ≠ [] ∧ s.all (·.isDigit) then
    some (s.foldl (fun acc c => acc * 10 + (c.toNat - 48)) 0)
  else none

/-- `str::parse::<i64>`: an optional leading `-` then digits. -/
def parseInt? (s : List Char) : Option Int :=
  match s with
  | '-' :: rest => (parseNat? rest).map (fun n => -(n : Int))
  | _ => (parseNat? s).map (fun n => (n : Int))

/-- `args.rs` `OutputKind`. -/
inductive OutputKind where
  | StaticExecutable
  | DynamicExecutable
  | SharedObject
  deriving DecidableEq, BEq, Repr

/-- `args.rs` `Modifiers`: per-input link-modifier state. -/
structure Modifiers where
  as_needed : Bool
  allow_shared : Bool
  deriving DecidableEq, Repr

/-- `args.rs` `impl Default for Modifiers`. -/
def Modifiers.default : Modifiers :=
  { as_needed := false, allow_shared := true }

/-- `args.rs` `InputSpec`: a file path or a `-l` library name. -/
inductive InputSpec where
  | File (path : List Char)
  | Lib (name : List Char)
  deriving DecidableEq, Repr

/-- `args.rs` `Input`. -/
structure Input where
  spec : InputSpec
  search_first : Option (List Char)
  modifiers : Modifiers
  deriving DecidableEq, Repr

/-- `args.rs` `Args`: the parsed configuration.  `num_threads` is the value of
the `NonZeroUsize`. -/
structure Args where
  lib_search_path : List (List Char)
  inputs : List Input
  output : List Char
  dynamic_linker : Option (List Char)
  output_kind : OutputKind
  num_threads : Nat
  strip_all : Bool
  strip_debug : Bool
  prepopulate_maps : Bool
  sym_info : Option (List Char)
  merge_strings : Bool
  debug_fuel : Option Int
  time_phases : Bool
  validate_output : Bool
  pie : Bool
  version_script_path : Option (List Char)
  deriving DecidableEq, Repr

/-- Modelled from the spec: `TlsMode` (`layout.rs`, not under `src/`):
`{LocalExec, Preserve}`, the process-wide TLS-relocation policy. -/
inductive TlsMode where
  | LocalExec
  | Preserve
  deriving DecidableEq, Repr

/-- `args.rs` `Args::base_address`. -/
def Args.base_address (a : Args) : Nat :=
  if a.pie then 0 else NON_PIE_START_MEM_ADDRESS

/-- `args.rs` `Args::tls_mode`. -/
def Args.tls_mode (a : Args) : TlsMode :=
  if a.output_kind = OutputKind.StaticExecutable then TlsMode.LocalExec
  else TlsMode.Preserve

/-- `args.rs` `Args::is_relocatable`. -/
def Args.is_relocatable (a : Args) : Bool :=
  a.pie || a.output_kind != OutputKind.StaticExecutable

/-- `args.rs` `IGNORED_FLAGS`. -/
def IGNORED_FLAGS : List (List Char) :=
  ["--eh-frame-hdr".data, "--build-id".data, "--gc-sections".data,
   "--start-group".data, "--end-group".data, "-nostdlib".data,
   "--no-undefined-version".data]

/-- The mutable local state of the `Args::parse` loop. -/
structure ParseState where
  lib_search_path : List (List Char)
  inputs : List Input
  output : Option (List Char)
  dynamic_linker : Option (List Char)
  output_kind : OutputKind
  time_phases : Bool
  num_threads : Option Nat
  strip_all : Bool
  strip_debug : Bool
  prepopulate_maps : Bool
  sym_info : Option (List Char)
  merge_strings : Bool
  debug_fuel : Option Int
  validate_output : Bool
  pie : Bool
  modifier_stack : List Modifiers
  version_script_path : Option (List Char)
  deriving DecidableEq, Repr

/-- The state of the parse loop's locals on entry (`args.rs` lines 97–114).
`validateEnv` is the ambient value of
`std::env::var(VALIDATE_ENV).is_ok_and(|v| v == "1")`.  The modifier stack is
kept top-first (`Vec::last` = list head). -/
def initState (validateEnv : Bool) : ParseState :=
  { lib_search_path := []
    inputs := []
    output := none
    dynamic_linker := none
    output_kind := OutputKind.StaticExecutable
    time_phases := false
    num_threads := none
    strip_all := false
    strip_debug := false
    prepopulate_maps := false
    sym_info := none
    merge_strings := true
    debug_fuel := none
    validate_output := validateEnv
    pie := false
    modifier_stack := [Modifiers.default]
    version_script_path := none }

/-- One iteration of the `Args::parse` while-loop: processes `arg`, optionally
consuming `lookahead` (the next argument, for the arms that call
`input.next()`).  Returns the updated state and whether the lookahead was
consumed.  The single long `if`/`else if` chain of the source is split, purely
for proof convenience, into `step1` (entry) and `step1_2` … `step1_7`; each
falls through to the next, and the arms appear in the source's order.
`Vec::last_mut().unwrap()` on an empty modifier stack is a Rust panic,
embedded as an error (it is unreachable from `initState`, see the
stack-nonemptiness invariant).  Fall-through part 7: `--help`, ignored flags,
unrecognised `-` arguments, and bare file paths. -/
def step1_7 (st : ParseState) (arg : List Char) (lookahead : Option (List Char)) :
    Except String (ParseState × Bool) :=
  if arg = "--help".data then .error "Sorry, help is not implemented yet"
  else if arg ∈ IGNORED_FLAGS then .ok (st, false)
  else if isPrefixChars "-".data arg then
    .error ("Unrecognised argument `" ++ String.mk arg ++ "`")
  else
    match st.modifier_stack with
    | [] => .error "panicked at modifier_stack.last().unwrap()"
    | m :: _ =>
      .ok ({ st with inputs :=
        st.inputs ++ [{ spec := InputSpec.File arg, search_first := none, modifiers := m }] },
        false)

/-- Fall-through part 6: `--no-string-merge`, `-pie`, `-shared`,
`-plugin-opt=`, `-plugin`, `--validate-output`, `--debug-fuel=`.  The
`lookahead` parameter is unused by these arms except `-plugin`. -/
def step1_6 (st : ParseState) (arg : List Char) (lookahead : Option (List Char)) :
    Except String (ParseState × Bool) :=
  if arg = "--no-string-merge".data then .ok ({ st with merge_strings := false }, false)
  else if arg = "-pie".data then .ok ({ st with pie := true }, false)
  else if arg = "-shared".data then .ok ({ st with output_kind := OutputKind.SharedObject }, false)
  else if isPrefixChars "-plugin-opt=".data arg then .ok (st, false)
  else if arg = "-plugin".data then
    match lookahead with
    | some _ => .ok (st, true)
    | none => .ok (st, false)
  else if arg = "--validate-output".data then .ok ({ st with validate_output := true }, false)
  else
  match stripPrefixChars "--debug-fuel=".data arg with
  | some rest =>
    match parseInt? rest with
    | none => .error "invalid digit found in string"
    | some n =>
      -- Using debug fuel with more than one thread would likely give
      -- non-deterministic results.
      .ok ({ st with debug_fuel := some n, num_threads := some 1 }, false)
  | none => step1_7 st arg lookahead

/-- Fall-through part 5: `--as-needed`, `--no-as-needed`, `--push-state`,
`--pop-state`, `--version-script=`. -/
def step1_5 (st : ParseState) (arg : List Char) (lookahead : Option (List Char)) :
    Except String (ParseState × Bool) :=
  if arg = "--as-needed".data then
    match st.modifier_stack with
    | [] => .error "panicked at modifier_stack.last_mut().unwrap()"
    | m :: ms => .ok ({ st with modifier_stack := { m with as_needed := true } :: ms }, false)
  else if arg = "--no-as-needed".data then
    match st.modifier_stack with
    | [] => .error "panicked at modifier_stack.last_mut().unwrap()"
    | m :: ms => .ok ({ st with modifier_stack := { m with as_needed := false } :: ms }, false)
  else if arg = "--push-state".data then
    match st.modifier_stack with
    | [] => .error "panicked at modifier_stack.last().unwrap()"
    | m :: ms => .ok ({ st with modifier_stack := m :: m :: ms }, false)
  else if arg = "--pop-state".data then
    -- We put the initial value on the stack, so if it's ever empty, then the
    -- arguments are invalid.
    if st.modifier_stack.tail.isEmpty then .error "Mismatched --pop-state"
    else .ok ({ st with modifier_stack := st.modifier_stack.tail }, false)
  else
  match stripPrefixChars "--version-script=".data arg with
  | some script => .ok ({ st with version_script_path := some script }, false)
  | none => step1_6 st arg lookahead

/-- Fall-through part 4: `--strip-all`, `--strip-debug`, `-z`/`-m` (which
discard the next argument), `-O`, `--prepopulate-maps`, `--sym-info`. -/
def step1_4 (st : ParseState) (arg : List Char) (lookahead : Option (List Char)) :
    Except String (ParseState × Bool) :=
  if arg = "--strip-all".data then
    .ok ({ st with strip_all := true, strip_debug := true }, false)
  else if arg = "--strip-debug".data then .ok ({ st with strip_debug := true }, false)
  else if arg = "-z".data ∨ arg = "-m".data then
    -- Ignore this argument and the next thing that comes after it.
    match lookahead with
    | some _ => .ok (st, true)
    | none => .ok (st, false)
  else
  match stripPrefixChars "-O".data arg with
  | some _ => .ok (st, false)
  | none =>
  if arg = "--prepopulate-maps".data then .ok ({ st with prepopulate_maps := true }, false)
  else if arg = "--sym-info".data then
    match lookahead with
    | some next => .ok ({ st with sym_info := some next }, true)
    | none => .ok ({ st with sym_info := none }, false)
  else step1_5 st arg lookahead

/-- Fall-through part 3: `--hash-style=`, `--build-id=`, `--time`,
`--threads=`. -/
def step1_3 (st : ParseState) (arg : List Char) (lookahead : Option (List Char)) :
    Except String (ParseState × Bool) :=
  match stripPrefixChars "--hash-style=".data arg with
  | some style =>
    if style ≠ "gnu".data then
      .error ("Unsupported hash-style `" ++ String.mk style ++ "`")
    else .ok (st, false)
  | none =>
  if isPrefixChars "--build-id=".data arg then .ok (st, false)
  else if arg = "--time".data then .ok ({ st with time_phases := true }, false)
  else
  match stripPrefixChars "--threads=".data arg with
  | some rest =>
    match parseNat? rest with
    | none => .error "invalid digit found in string"
    | some n =>
      if n = 0 then .error "out of range integral type conversion attempted"
      else .ok ({ st with num_threads := some n }, false)
  | none => step1_4 st arg lookahead

/-- Fall-through part 2: `-static`/`-Bstatic`, `-Bdynamic`, `-o`,
`--dynamic-linker`/`-dynamic-linker`, `--no-dynamic-linker`. -/
def step1_2 (st : ParseState) (arg : List Char) (lookahead : Option (List Char)) :
    Except String (ParseState × Bool) :=
  if arg = "-static".data ∨ arg = "-Bstatic".data then
    match st.modifier_stack with
    | [] => .error "panicked at modifier_stack.last_mut().unwrap()"
    | m :: ms => .ok ({ st with modifier_stack := { m with allow_shared := false } :: ms }, false)
  else if arg = "-Bdynamic".data then
    match st.modifier_stack with
    | [] => .error "panicked at modifier_stack.last_mut().unwrap()"
    | m :: ms => .ok ({ st with modifier_stack := { m with allow_shared := true } :: ms }, false)
  else if arg = "-o".data then
    match lookahead with
    | some next => .ok ({ st with output := some next }, true)
    | none => .ok ({ st with output := none }, false)
  else if arg = "--dynamic-linker".data ∨ arg = "-dynamic-linker".data then
    match lookahead with
    | some next =>
      .ok ({ st with output_kind := OutputKind.DynamicExecutable, dynamic_linker := some next },
        true)
    | none =>
      .ok ({ st with output_kind := OutputKind.DynamicExecutable, dynamic_linker := none }, false)
  else if arg = "--no-dynamic-linker".data then .ok ({ st with dynamic_linker := none }, false)
  else step1_3 st arg lookahead

/-- Entry of the per-argument processing: the `-L` and `-l` arms, then the
fall-through chain. -/
def step1 (st : ParseState) (arg : List Char) (lookahead : Option (List Char)) :
    Except String (ParseState × Bool) :=
  match stripPrefixChars "-L".data arg with
  | some rest =>
    if rest = [] then
      match lookahead with
      | some next => .ok ({ st with lib_search_path := st.lib_search_path ++ [next] }, true)
      | none => .ok (st, false)
    else .ok ({ st with lib_search_path := st.lib_search_path ++ [rest] }, false)
  | none =>
  match stripPrefixChars "-l".data arg with
  | some rest =>
    match st.modifier_stack with
    | [] => .error "panicked at modifier_stack.last().unwrap()"
    | m :: _ =>
      .ok ({ st with inputs :=
        st.inputs ++ [{ spec := InputSpec.Lib rest, search_first := none, modifiers := m }] },
        false)
  | none => step1_2 st arg lookahead

/-- The `Args::parse` while-loop over the remaining arguments. -/
def parseLoop : ParseState → List (List Char) → Except String ParseState
  | st, [] => .ok st
  | st, [arg] =>
    match step1 st arg none with
    | .error e => .error e
    | .ok (st2, _) => .ok st2
  | st, arg :: next :: rest =>
    match step1 st arg (some next) with
    | .error e => .error e
    | .ok (st2, true) => parseLoop st2 rest
    | .ok (st2, false) => parseLoop st2 (next :: rest)

/-- The tail of `Args::parse` (`args.rs` lines 214–236): default the thread
count, require `-o`, and build the `Args`.  `defaultThreads` is the ambient
value of `available_parallelism().unwrap_or(1)`. -/
def finishParse (defaultThreads : Nat) (st : ParseState) : Except String Args :=
  match st.output with
  | none => .error "Missing required argument -o"
  | some out =>
    .ok { lib_search_path := st.lib_search_path
          inputs := st.inputs
          output := out
          dynamic_linker := st.dynamic_linker
          output_kind := st.output_kind
          num_threads := st.num_threads.getD defaultThreads
          strip_all := st.strip_all
          strip_debug := st.strip_debug
          prepopulate_maps := st.prepopulate_maps
          sym_info := st.sym_info
          merge_strings := st.merge_strings
          debug_fuel := st.debug_fuel
          time_phases := st.time_phases
          validate_output := st.validate_output
          pie := st.pie
          version_script_path := st.version_script_path }

/-- `args.rs` `Args::parse`: skip the program name, run the loop, finish. -/
def parseArgs (validateEnv : Bool) (defaultThreads : Nat) (argv : List (List Char)) :
    Except String Args :=
  match parseLoop (initState validateEnv) argv.tail with
  | .error e => .error e
  | .ok st => finishParse defaultThreads st

/-! ## Output validation (`validation.rs`)

The `Layout`, `Resolution`, `ResolutionValue` and `TargetResolutionKind` types
live in `layout.rs`, which is not under `src/`; the fields and variants that
`validation.rs` consumes are modelled from the spec. -/

/-- Modelled from the spec: `TargetResolutionKind` (`layout.rs`, not under
`src/`), the tag of a `Resolution` — `{Normal, IFunc, GotTlsOffset, ...}`.
Variants beyond the three the spec names are omitted; `validation.rs`
distinguishes only `IFunc`/`GotTlsOffset` from the rest. -/
inductive TargetResolutionKind where
  | Normal
  | IFunc
  | GotTlsOffset
  deriving DecidableEq, Repr

/-- Modelled from the spec: `ResolutionValue` (`layout.rs`, not under `src/`):
`Absolute(addr)`, `Address(addr)`, or `Dynamic(info)`. -/
inductive ResolutionValue where
  | Absolute (v : Nat)
  | Address (v : Nat)
  | Dynamic (info : Nat)
  deriving DecidableEq, Repr

/-- Modelled from the spec: `Resolution` (`layout.rs`, not under `src/`):
a kind tag, an optional GOT-slot address, and a value. -/
structure Resolution where
  kind : TargetResolutionKind
  got_address : Option Nat
  value : ResolutionValue
  deriving DecidableEq, Repr

/-- The `.got` section of the re-parsed output image: its virtual address
(`Section::address`) and its bytes (`Section::data`). -/
structure GotSection where
  address : Nat
  data : List Nat
  deriving DecidableEq, Repr

/-- The re-parsed ELF output as consumed by `validate_object`: only
`section_by_name(".got")` is used, so only that lookup's result is kept. -/
structure ElfObject where
  gotSection : Option GotSection
  deriving DecidableEq, Repr

/-- `layout.rs` `FileLayout` variants, as matched exhaustively in
`validate_object`.  Modelled from the spec: `Object` carries, per section, its
name bytes and optional `Resolution`. -/
inductive FileLayout where
  | Internal
  | Object (sections : List (List Nat × Option Resolution))
  | Dynamic
  | Epilogue
  | NotLoaded
  deriving DecidableEq, Repr

/-- The slice of `Layout` consumed by `validate_object`: the parsed `Args`
(`layout.args()`), the global-symbol resolutions
(`symbol_db.global_names` paired with `symbol_resolution`), and the per-file
layouts. -/
structure Layout where
  args : Args
  global_name_resolutions : List (List Nat × Option Resolution)
  file_layouts : List FileLayout
  deriving DecidableEq, Repr

/-- The structured contents of the three `bail!` diagnostics of
`validation.rs`: each constructor carries exactly the data the corresponding
format string interpolates. -/
inductive ValidationError where
  /-- "Missing .got from output file" -/
  | MissingGot
  /-- "GOT offset beyond end of GOT 0x{end_offset}" -/
  | GotOffsetBeyondEnd (end_offset : Nat)
  /-- "res={res_kind:?} `{name}` has address 0x{expected:x}, but GOT (at
  0x{got_address:x}) points to 0x{address:x}" -/
  | Mismatch (res_kind : TargetResolutionKind) (name : List Nat) (expected : Nat)
      (got_address : Nat) (found : Nat)
  deriving DecidableEq, Repr

/-- Wrapping `u64` subtraction (`got_address.get() - got.address()` in release
mode). -/
def wrappingSub64 (a b : Nat) : Nat :=
  (a + 2 ^ 64 - b % 2 ^ 64) % 2 ^ 64

/-- `bytemuck::pod_read_unaligned::<u64>` on a little-endian target: read the
8 bytes at `off` as a little-endian `u64`. -/
def readU64LE (data : List Nat) (off : Nat) : Nat :=
  ((data.drop off).take 8).foldr (fun b acc => acc * 256 + b) 0

/-- `validation.rs` `validate_resolution`: check one resolution's GOT slot
against the emitted bytes. -/
def validate_resolution (name : List Nat) (resolution : Resolution) (got : GotSection)
    (got_data : List Nat) : Except ValidationError Unit :=
  if resolution.kind = TargetResolutionKind.IFunc ∨
      resolution.kind = TargetResolutionKind.GotTlsOffset then .ok ()
  else
    match resolution.got_address with
    | none => .ok ()
    | some got_address =>
      let start_offset := wrappingSub64 got_address got.address
      let end_offset := start_offset + 8
      if end_offset > got_data.length then .error (.GotOffsetBeyondEnd end_offset)
      else
        match resolution.value with
        | .Dynamic _ => .ok ()
        | .Absolute expected | .Address expected =>
          let found := readU64LE got_data start_offset
          if expected ≠ found then
            .error (.Mismatch resolution.kind name expected got_address found)
          else .ok ()

/-- The shape shared by the two `validate_object` loops: run
`validate_resolution` over a list of named optional resolutions, stopping at
the first error. -/
def validate_resolution_list (got : GotSection) (got_data : List Nat) :
    List (List Nat × Option Resolution) → Except ValidationError Unit
  | [] => .ok ()
  | (name, r) :: rest =>
    match r with
    | none => validate_resolution_list got got_data rest
    | some res =>
      match validate_resolution name res got got_data with
      | .error e => .error e
      | .ok _ => validate_resolution_list got got_data rest

/-- The second `validate_object` loop, over `layout.file_layouts`: only
`Object` entries are checked. -/
def validate_file_layouts (got : GotSection) (got_data : List Nat) :
    List FileLayout → Except ValidationError Unit
  | [] => .ok ()
  | fl :: rest =>
    match fl with
    | .Object sections =>
      match validate_resolution_list got got_data sections with
      | .error e => .error e
      | .ok _ => validate_file_layouts got got_data rest
    | .Internal => validate_file_layouts got got_data rest
    | .Dynamic => validate_file_layouts got got_data rest
    | .Epilogue => validate_file_layouts got got_data rest
    | .NotLoaded => validate_file_layouts got got_data rest

/-- `validation.rs` `validate_object`: skip relocatable outputs entirely,
otherwise require a `.got` section and check every global-symbol resolution
and every per-section resolution against it. -/
def validate_object (object : ElfObject) (layout : Layout) : Except ValidationError Unit :=
  if layout.args.is_relocatable then
    -- For now, we don't do any validation of relocatable outputs.
    .ok ()
  else
    match object.gotSection with
    | none => .error .MissingGot
    | some got =>
      match validate_resolution_list got got.data layout.global_name_resolutions with
      | .error e => .error e
      | .ok _ => validate_file_layouts got got.data layout.file_layouts

/-- A concrete `Args` value (as produced by a minimal successful parse), used
to instantiate universally quantified theorems. -/
def sampleArgs (k : OutputKind) (p : Bool) : Args :=
  { lib_search_path := []
    inputs := []
    output := "out".data
    dynamic_linker := none
    output_kind := k
    num_threads := 1
    strip_all := false
    strip_debug := false
    prepopulate_maps := false
    sym_info := none
    merge_strings := true
    debug_fuel := none
    time_phases := false
    validate_output := false
    pie := p
    version_script_path := none }

/-- Per-step effect summary of one `step1` iteration, shared by the loop
invariants: inputs only grow (and keep their recorded modifiers);
`num_threads` changes only via `--threads=` (to the given count) or
`--debug-fuel=` (to one); the modifier stack stays nonempty and its length
changes only via `--push-state`/`--pop-state`. -/
def StepEffects (st : ParseState) (a : List Char) (st2 : ParseState) : Prop :=
  (∃ e, st2.inputs = st.inputs ++ e)
  ∧ (st2.num_threads = st.num_threads ∨ st2.num_threads = some 1 ∨
      stripPrefixChars "--threads=".data a ≠ none)
  ∧ (st.modifier_stack ≠ [] → st2.modifier_stack ≠ [])
  ∧ (st2.modifier_stack.length = st.modifier_stack.length ∨
      a = "--push-state".data ∨ a = "--pop-state".data)

/-! ## Helper lemmas -/

/-- `wrappingSub64` agrees with exact subtraction when no underflow occurs. -/
theorem wrappingSub64_eq {a b : Nat} (hb : b ≤ a) (ha : a < 2 ^ 64) :
    wrappingSub64 a b = a - b := by
  unfold wrappingSub64
  have h64 : (2 : Nat) ^ 64 = 18446744073709551616 := by norm_num
  rw [h64] at ha ⊢
  omega

/-- One-step unfolding of `parseLoop` on a nonempty argument list. -/
theorem parseLoop_cons (st : ParseState) (a : List Char) (rest : List (List Char)) :
    parseLoop st (a :: rest) =
      match step1 st a rest.head? with
      | .error e => .error e
      | .ok (st2, true) => parseLoop st2 rest.tail
      | .ok (st2, false) => parseLoop st2 rest := by
  cases rest with
  | nil =>
    cases h : step1 st a none with
    | error e => simp [parseLoop, h]
    | ok p =>
      obtain ⟨st2, b⟩ := p
      cases b <;> simp [parseLoop, h]
  | cons nx rs => rfl

/-- Effect summary for `step1_7`. -/
theorem step1_7_effects {st : ParseState} {a : List Char} {la : Option (List Char)}
    {st2 : ParseState} {b : Bool} (h : step1_7 st a la = .ok (st2, b)) :
    StepEffects st a st2 := by
  unfold step1_7 at h
  repeat' split at h
  all_goals try exact Except.noConfusion h
  all_goals injection h with h1
  all_goals injection h1 with hA hB
  all_goals subst hA
  all_goals unfold StepEffects
  all_goals refine ⟨?_, ?_, ?_, ?_⟩
  all_goals
    first
    | exact ⟨[], (List.append_nil _).symm⟩
    | exact ⟨_, rfl⟩
    | exact Or.inl rfl
    | exact Or.inr (Or.inl rfl)
    | (left; simp_all; done)
    | (right; simp_all; done)
    | (right; right; simp_all; done)
    | (intro hne; simp_all; done)

/-- Effect summary for `step1_6`. -/
theorem step1_6_effects {st : ParseState} {a : List Char} {la : Option (List Char)}
    {st2 : ParseState} {b : Bool} (h : step1_6 st a la = .ok (st2, b)) :
    StepEffects st a st2 := by
  unfold step1_6 at h
  repeat' split at h
  all_goals try exact Except.noConfusion h
  all_goals try exact step1_7_effects h
  all_goals injection h with h1
  all_goals injection h1 with hA hB
  all_goals subst hA
  all_goals unfold StepEffects
  all_goals refine ⟨?_, ?_, ?_, ?_⟩
  all_goals
    first
    | exact ⟨[], (List.append_nil _).symm⟩
    | exact ⟨_, rfl⟩
    | exact Or.inl rfl
    | exact Or.inr (Or.inl rfl)
    | (left; simp_all; done)
    | (right; simp_all; done)
    | (right; right; simp_all; done)
    | (intro hne; simp_all; done)

/-- Effect summary for `step1_5`. -/
theorem step1_5_effects {st : ParseState} {a : List Char} {la : Option (List Char)}
    {st2 : ParseState} {b : Bool} (h : step1_5 st a la = .ok (st2, b)) :
    StepEffects st a st2 := by
  unfold step1_5 at h
  repeat' split at h
  all_goals try exact Except.noConfusion h
  all_goals try exact step1_6_effects h
  all_goals injection h with h1
  all_goals injection h1 with hA hB
  all_goals subst hA
  all_goals unfold StepEffects
  all_goals refine ⟨?_, ?_, ?_, ?_⟩
  all_goals
    first
    | exact ⟨[], (List.append_nil _).symm⟩
    | exact ⟨_, rfl⟩
    | exact Or.inl rfl
    | exact Or.inr (Or.inl rfl)
    | (left; simp_all; done)
    | (right; simp_all; done)
    | (right; right; simp_all; done)
    | (intro hne; simp_all; done)

/-- Effect summary for `step1_4`. -/
theorem step1_4_effects {st : ParseState} {a : List Char} {la : Option (List Char)}
    {st2 : ParseState} {b : Bool} (h : step1_4 st a la = .ok (st2, b)) :
    StepEffects st a st2 := by
  unfold step1_4 at h
  repeat' split at h
  all_goals try exact Except.noConfusion h
  all_goals try exact step1_5_effects h
  all_goals injection h with h1
  all_goals injection h1 with hA hB
  all_goals subst hA
  all_goals unfold StepEffects
  all_goals refine ⟨?_, ?_, ?_, ?_⟩
  all_goals
    first
    | exact ⟨[], (List.append_nil _).symm⟩
    | exact ⟨_, rfl⟩
    | exact Or.inl rfl
    | exact Or.inr (Or.inl rfl)
    | (left; simp_all; done)
    | (right; simp_all; done)
    | (right; right; simp_all; done)
    | (intro hne; simp_all; done)

/-- Effect summary for `step1_3`. -/
theorem step1_3_effects {st : ParseState} {a : List Char} {la : Option (List Char)}
    {st2 : ParseState} {b : Bool} (h : step1_3 st a la = .ok (st2, b)) :
    StepEffects st a st2 := by
  unfold step1_3 at h
  repeat' split at h
  all_goals try exact Except.noConfusion h
  all_goals try exact step1_4_effects h
  all_goals injection h with h1
  all_goals injection h1 with hA hB
  all_goals subst hA
  all_goals unfold StepEffects
  all_goals refine ⟨?_, ?_, ?_, ?_⟩
  all_goals
    first
    | exact ⟨[], (List.append_nil _).symm⟩
    | exact ⟨_, rfl⟩
    | exact Or.inl rfl
    | exact Or.inr (Or.inl rfl)
    | (left; simp_all; done)
    | (right; simp_all; done)
    | (right; right; simp_all; done)
    | (intro hne; simp_all; done)

/-- Effect summary for `step1_2`. -/
theorem step1_2_effects {st : ParseState} {a : List Char} {la : Option (List Char)}
    {st2 : ParseState} {b : Bool} (h : step1_2 st a la = .ok (st2, b)) :
    StepEffects st a st2 := by
  unfold step1_2 at h
  repeat' split at h
  all_goals try exact Except.noConfusion h
  all_goals try exact step1_3_effects h
  all_goals injection h with h1
  all_goals injection h1 with hA hB
  all_goals subst hA
  all_goals unfold StepEffects
  all_goals refine ⟨?_, ?_, ?_, ?_⟩
  all_goals
    first
    | exact ⟨[], (List.append_nil _).symm⟩
    | exact ⟨_, rfl⟩
    | exact Or.inl rfl
    | exact Or.inr (Or.inl rfl)
    | (left; simp_all; done)
    | (right; simp_all; done)
    | (right; right; simp_all; done)
    | (intro hne; simp_all; done)

/-- Effect summary for `step1`. -/
theorem step1_effects {st : ParseState} {a : List Char} {la : Option (List Char)}
    {st2 : ParseState} {b : Bool} (h : step1 st a la = .ok (st2, b)) :
    StepEffects st a st2 := by
  unfold step1 at h
  repeat' split at h
  all_goals try exact Except.noConfusion h
  all_goals try exact step1_2_effects h
  all_goals injection h with h1
  all_goals injection h1 with hA hB
  all_goals subst hA
  all_goals unfold StepEffects
  all_goals refine ⟨?_, ?_, ?_, ?_⟩
  all_goals
    first
    | exact ⟨[], (List.append_nil _).symm⟩
    | exact ⟨_, rfl⟩
    | exact Or.inl rfl
    | exact Or.inr (Or.inl rfl)
    | (left; simp_all; done)
    | (right; simp_all; done)
    | (right; right; simp_all; done)
    | (intro hne; simp_all; done)


/-- Master loop invariant: any reflexive-transitive relation preserved by
every successful `step1` on arguments of `l` is preserved by a successful
`parseLoop` run over `l`. -/
theorem parseLoop_rel (R : ParseState → ParseState → Prop)
    (htrans : ∀ s1 s2 s3, R s1 s2 → R s2 s3 → R s1 s3) (hrefl : ∀ s, R s s) :
    ∀ (n : Nat) (l : List (List Char)), l.length ≤ n →
      (∀ st a la st2 b, a ∈ l → step1 st a la = .ok (st2, b) → R st st2) →
      ∀ st st', parseLoop st l = .ok st' → R st st' := by
  intro n
  induction n with
  | zero =>
    intro l hl _ st st' h
    have hnil : l = [] := List.length_eq_zero.mp (Nat.le_zero.mp hl)
    subst hnil
    simp only [parseLoop, Except.ok.injEq] at h
    subst h
    exact hrefl st
  | succ n ih =>
    intro l hl hstep st st' h
    cases l with
    | nil =>
      simp only [parseLoop, Except.ok.injEq] at h
      subst h
      exact hrefl st
    | cons a rest =>
      rw [parseLoop_cons] at h
      cases hs : step1 st a rest.head? with
      | error e => rw [hs] at h; exact Except.noConfusion h
      | ok p =>
        obtain ⟨st2, b⟩ := p
        rw [hs] at h
        have hR1 : R st st2 := hstep st a rest.head? st2 b (List.mem_cons_self a rest) hs
        have hlen : rest.length ≤ n := by
          simp only [List.length_cons] at hl
          omega
        cases b with
        | true =>
          have hlen2 : rest.tail.length ≤ n := by
            have := List.length_tail rest
            omega
          exact htrans _ _ _ hR1 (ih rest.tail hlen2
            (fun st1 a1 la1 st3 b1 hm hs1 =>
              hstep st1 a1 la1 st3 b1
                (List.mem_cons_of_mem _ (List.tail_subset rest hm)) hs1)
            st2 st' h)
        | false =>
          exact htrans _ _ _ hR1 (ih rest hlen
            (fun st1 a1 la1 st3 b1 hm hs1 =>
              hstep st1 a1 la1 st3 b1 (List.mem_cons_of_mem _ hm) hs1)
            st2 st' h)

/-- Over any successful `parseLoop` run, inputs are only appended: every input
already recorded, together with its captured modifiers, is unchanged by later
arguments. -/
theorem parseLoop_inputs_append {st : ParseState} {l : List (List Char)}
    {st' : ParseState} (h : parseLoop st l = .ok st') :
    ∃ extra, st'.inputs = st.inputs ++ extra := by
  refine parseLoop_rel (fun s1 s2 => ∃ e, s2.inputs = s1.inputs ++ e)
    ?_ (fun s => ⟨[], (List.append_nil _).symm⟩) l.length l le_rfl ?_ st st' h
  · rintro s1 s2 s3 ⟨e1, h1⟩ ⟨e2, h2⟩
    exact ⟨e1 ++ e2, by rw [h2, h1, List.append_assoc]⟩
  · intro st1 a la st2 b _ hs
    exact (step1_effects hs).1

/-- Over any successful `parseLoop` run, a nonempty modifier stack stays
nonempty. -/
theorem parseLoop_stack_ne_nil {st : ParseState} {l : List (List Char)}
    {st' : ParseState} (h : parseLoop st l = .ok st')
    (hne : st.modifier_stack ≠ []) : st'.modifier_stack ≠ [] := by
  refine parseLoop_rel
    (fun s1 s2 => s1.modifier_stack ≠ [] → s2.modifier_stack ≠ [])
    (fun s1 s2 s3 h1 h2 => fun hn => h2 (h1 hn)) (fun s => id)
    l.length l le_rfl ?_ st st' h hne
  intro st1 a la st2 b _ hs
  exact (step1_effects hs).2.2.1

/-- Over any successful `parseLoop` run in which no argument is a
`--threads=` option, a thread count already forced to one stays one. -/
theorem parseLoop_threads_one {st : ParseState} {l : List (List Char)}
    {st' : ParseState} (h : parseLoop st l = .ok st')
    (hth : ∀ a ∈ l, stripPrefixChars "--threads=".data a = none)
    (h1 : st.num_threads = some 1) : st'.num_threads = some 1 := by
  refine parseLoop_rel
    (fun s1 s2 => s1.num_threads = some 1 → s2.num_threads = some 1)
    (fun s1 s2 s3 hx hy => fun hn => hy (hx hn)) (fun s => id)
    l.length l le_rfl ?_ st st' h h1
  intro st1 a la st2 b hm hs
  intro hn
  rcases (step1_effects hs).2.1 with he | he | he
  · rw [he, hn]
  · exact he
  · exact absurd (hth a hm) he

/-- A `step1` error is a `parseLoop` error. -/
theorem parseLoop_error {st : ParseState} {a : List Char} {rest : List (List Char)}
    {e : String} (hs : step1 st a rest.head? = .error e) :
    parseLoop st (a :: rest) = .error e := by
  rw [parseLoop_cons, hs]

/-- A `parseLoop` error is an `Args::parse` error: parse errors are never
downgraded. -/
theorem parseArgs_error {v : Bool} {d : Nat} {argv : List (List Char)} {e : String}
    (h : parseLoop (initState v) argv.tail = .error e) :
    parseArgs v d argv = .error e := by
  unfold parseArgs
  rw [h]

/-- Processing `-static` replaces the top of the modifier stack, clearing
`allow_shared`. -/
theorem step1_static_eq {st : ParseState} {m : Modifiers} {ms : List Modifiers}
    (hst : st.modifier_stack = m :: ms) (la : Option (List Char)) :
    step1 st "-static".data la =
      .ok ({ st with modifier_stack := { m with allow_shared := false } :: ms }, false) := by
  obtain ⟨f1, f2, f3, f4, f5, f6, f7, f8, f9, f10, f11, f12, f13, f14, f15, stk, f17⟩ := st
  dsimp only at hst
  subst hst
  rfl

/-- Processing `-Bstatic` replaces the top of the modifier stack, clearing
`allow_shared`. -/
theorem step1_Bstatic_eq {st : ParseState} {m : Modifiers} {ms : List Modifiers}
    (hst : st.modifier_stack = m :: ms) (la : Option (List Char)) :
    step1 st "-Bstatic".data la =
      .ok ({ st with modifier_stack := { m with allow_shared := false } :: ms }, false) := by
  obtain ⟨f1, f2, f3, f4, f5, f6, f7, f8, f9, f10, f11, f12, f13, f14, f15, stk, f17⟩ := st
  dsimp only at hst
  subst hst
  rfl

/-- Processing `-Bdynamic` replaces the top of the modifier stack, setting
`allow_shared`. -/
theorem step1_Bdynamic_eq {st : ParseState} {m : Modifiers} {ms : List Modifiers}
    (hst : st.modifier_stack = m :: ms) (la : Option (List Char)) :
    step1 st "-Bdynamic".data la =
      .ok ({ st with modifier_stack := { m with allow_shared := true } :: ms }, false) := by
  obtain ⟨f1, f2, f3, f4, f5, f6, f7, f8, f9, f10, f11, f12, f13, f14, f15, stk, f17⟩ := st
  dsimp only at hst
  subst hst
  rfl

/-- Processing `--push-state` duplicates the top of the modifier stack. -/
theorem step1_push_eq {st : ParseState} {m : Modifiers} {ms : List Modifiers}
    (hst : st.modifier_stack = m :: ms) (la : Option (List Char)) :
    step1 st "--push-state".data la =
      .ok ({ st with modifier_stack := m :: m :: ms }, false) := by
  obtain ⟨f1, f2, f3, f4, f5, f6, f7, f8, f9, f10, f11, f12, f13, f14, f15, stk, f17⟩ := st
  dsimp only at hst
  subst hst
  rfl

/-- Processing `--pop-state` on a one-element modifier stack (no unmatched
`--push-state`) fails. -/
theorem step1_pop_err {st : ParseState} {m : Modifiers}
    (hst : st.modifier_stack = [m]) (la : Option (List Char)) :
    step1 st "--pop-state".data la = .error "Mismatched --pop-state" := by
  obtain ⟨f1, f2, f3, f4, f5, f6, f7, f8, f9, f10, f11, f12, f13, f14, f15, stk, f17⟩ := st
  dsimp only at hst
  subst hst
  rfl

/-- Processing `--pop-state` on a stack of at least two entries pops it. -/
theorem step1_pop_ok {st : ParseState} {m m2 : Modifiers} {ms : List Modifiers}
    (hst : st.modifier_stack = m :: m2 :: ms) (la : Option (List Char)) :
    step1 st "--pop-state".data la =
      .ok ({ st with modifier_stack := m2 :: ms }, false) := by
  obtain ⟨f1, f2, f3, f4, f5, f6, f7, f8, f9, f10, f11, f12, f13, f14, f15, stk, f17⟩ := st
  dsimp only at hst
  subst hst
  rfl

/-- Processing `-l<name>` records a library input carrying the modifiers at
the top of the stack at that moment. -/
theorem step1_lib_eq {st : ParseState} {m : Modifiers} {ms : List Modifiers}
    (hst : st.modifier_stack = m :: ms) (name : List Char) (la : Option (List Char)) :
    step1 st ('-' :: 'l' :: name) la =
      .ok ({ st with inputs := st.inputs ++
        [{ spec := InputSpec.Lib name, search_first := none, modifiers := m }] }, false) := by
  obtain ⟨f1, f2, f3, f4, f5, f6, f7, f8, f9, f10, f11, f12, f13, f14, f15, stk, f17⟩ := st
  dsimp only at hst
  subst hst
  rfl

/-- Processing `--hash-style=<style>` accepts exactly `gnu` and otherwise
fails naming the style. -/
theorem step1_hash_style_eq (st : ParseState) (la : Option (List Char)) (s : List Char) :
    step1 st ("--hash-style=".data ++ s) la =
      if s ≠ "gnu".data then
        .error ("Unsupported hash-style `" ++ String.mk s ++ "`")
      else .ok (st, false) := rfl

/-- Processing `--debug-fuel=<n>` records the fuel budget and forces the
thread count to one. -/
theorem step1_debug_fuel_eq (st : ParseState) (la : Option (List Char)) (s : List Char) :
    step1 st ("--debug-fuel=".data ++ s) la =
      match parseInt? s with
      | none => .error "invalid digit found in string"
      | some n => .ok ({ st with debug_fuel := some n, num_threads := some 1 }, false) := rfl

/-- Processing an argument that does not begin with `-` records a file input
carrying the modifiers at the top of the stack at that moment. -/
theorem step1_file_eq {st : ParseState} {m : Modifiers} {ms : List Modifiers}
    (hst : st.modifier_stack = m :: ms) {c : Char} (hc : c ≠ '-') (cs : List Char)
    (la : Option (List Char)) :
    step1 st (c :: cs) la =
      .ok ({ st with inputs := st.inputs ++
        [{ spec := InputSpec.File (c :: cs), search_first := none, modifiers := m }] },
        false) := by
  have hpre : ∀ (p : List Char), isPrefixChars ('-' :: p) (c :: cs) = false := by
    intro p
    simp only [isPrefixChars, beq_eq_false_iff_ne.mpr (Ne.symm hc), Bool.false_and]
  have hstrip : ∀ (p l : List Char), isPrefixChars p l = false → stripPrefixChars p l = none := by
    intro p l hp
    unfold stripPrefixChars
    rw [hp]
    rfl
  have hne : ∀ (l : List Char), c :: cs ≠ '-' :: l := by
    intro l he
    injection he with h1 h2
    exact hc h1
  have hig : (c :: cs) ∉ IGNORED_FLAGS := by
    intro hmem
    simp only [IGNORED_FLAGS, List.mem_cons, List.mem_nil_iff, or_false] at hmem
    rcases hmem with he | he | he | he | he | he | he <;> exact absurd he (hne _)
  have h12 : step1 st (c :: cs) la = step1_2 st (c :: cs) la := by
    unfold step1
    rw [hstrip _ _ (hpre ['L']), hstrip _ _ (hpre ['l'])]
  have h23 : step1_2 st (c :: cs) la = step1_3 st (c :: cs) la := by
    unfold step1_2
    rw [if_neg (by rintro (he | he) <;> exact absurd he (hne _)),
      if_neg (hne _), if_neg (hne _),
      if_neg (by rintro (he | he) <;> exact absurd he (hne _)),
      if_neg (hne _)]
  have h34 : step1_3 st (c :: cs) la = step1_4 st (c :: cs) la := by
    unfold step1_3
    rw [hstrip _ _ (hpre "-hash-style=".data),
      show isPrefixChars "--build-id=".data (c :: cs) = false from hpre "-build-id=".data,
      if_neg (hne _),
      hstrip _ _ (hpre "-threads=".data)]
    rfl
  have h45 : step1_4 st (c :: cs) la = step1_5 st (c :: cs) la := by
    unfold step1_4
    rw [if_neg (hne _), if_neg (hne _),
      if_neg (by rintro (he | he) <;> exact absurd he (hne _)),
      hstrip _ _ (hpre ['O']),
      if_neg (hne _), if_neg (hne _)]
  have h56 : step1_5 st (c :: cs) la = step1_6 st (c :: cs) la := by
    unfold step1_5
    rw [if_neg (hne _), if_neg (hne _), if_neg (hne _), if_neg (hne _),
      hstrip _ _ (hpre "-version-script=".data)]
  have h67 : step1_6 st (c :: cs) la = step1_7 st (c :: cs) la := by
    unfold step1_6
    rw [if_neg (hne _), if_neg (hne _), if_neg (hne _),
      show isPrefixChars "-plugin-opt=".data (c :: cs) = false from hpre "plugin-opt=".data,
      if_neg (hne _), if_neg (hne _),
      hstrip _ _ (hpre "-debug-fuel=".data)]
    rfl
  rw [h12, h23, h34, h45, h56, h67]
  unfold step1_7
  rw [if_neg (hne _), if_neg hig,
    show isPrefixChars "-".data (c :: cs) = false from hpre [],
    hst]
  rfl

/-- `from_raw` on any code outside the supported table takes every `else`
branch and fails naming the code. -/
theorem from_raw_unsupported {r_type : Nat}
    (hm : r_type ∉ supportedRelocationTypes) :
    RelocationKindInfo.from_raw r_type =
      .error ("Unsupported relocation type " ++ toString r_type) := by
  have hne : ∀ k, k ∈ supportedRelocationTypes → r_type ≠ k :=
    fun k hk he => hm (he ▸ hk)
  unfold RelocationKindInfo.from_raw
  rw [if_neg (hne R_X86_64_64 (by decide)), if_neg (hne R_X86_64_PC32 (by decide)),
    if_neg (hne R_X86_64_GOT32 (by decide)), if_neg (hne R_X86_64_PLT32 (by decide)),
    if_neg (hne R_X86_64_GOTPCREL (by decide)),
    if_neg (by
      rintro (he | he)
      · exact hne R_X86_64_32 (by decide) he
      · exact hne R_X86_64_32S (by decide) he),
    if_neg (hne R_X86_64_16 (by decide)), if_neg (hne R_X86_64_PC16 (by decide)),
    if_neg (hne R_X86_64_8 (by decide)), if_neg (hne R_X86_64_PC8 (by decide)),
    if_neg (hne R_X86_64_TLSGD (by decide)), if_neg (hne R_X86_64_TLSLD (by decide)),
    if_neg (hne R_X86_64_DTPOFF32 (by decide)), if_neg (hne R_X86_64_GOTTPOFF (by decide)),
    if_neg (by
      rintro (he | he)
      · exact hne R_X86_64_GOTPCRELX (by decide) he
      · exact hne R_X86_64_REX_GOTPCRELX (by decide) he),
    if_neg (hne R_X86_64_TPOFF32 (by decide)), if_neg (hne R_X86_64_NONE (by decide))]

/-! ## Claim theorems -/

/-- C1 counterexample: the claim asserts that `validate_resolution` errors iff
the GOT-slot bytes differ, for *every* resolution with a GOT address and
non-`Dynamic` value.  But a resolution of kind `IFunc` (likewise
`GotTlsOffset`) is skipped before any GOT read: here the GOT slot holds 0
while the resolution's `Absolute` value is 1, yet the validator returns `Ok`. -/
theorem validate_resolution_ifunc_skipped_counterexample :
    validate_resolution [120] ⟨.IFunc, some 0x1000, .Absolute 1⟩
        ⟨0x1000, [0, 0, 0, 0, 0, 0, 0, 0]⟩ [0, 0, 0, 0, 0, 0, 0, 0] = .ok ()
    ∧ readU64LE [0, 0, 0, 0, 0, 0, 0, 0] 0 ≠ 1 := ⟨rfl, by decide⟩

/-- C1 (amended): for every resolution whose kind is neither `IFunc` nor
`GotTlsOffset` (those two are skipped unchecked), with a GOT address set, an
in-bounds 8-byte slot, and a non-`Dynamic` (`Absolute`/`Address`) value, the
validator reads the 8 little-endian bytes at the slot's offset within `.got`
and returns an error exactly when they differ from the expected value; the
mismatch diagnostic carries the resolution kind, the symbol/section name, the
expected value, the GOT address, and the value actually found. -/
theorem validate_resolution_spec (name : List Nat) (res : Resolution)
    (got : GotSection) (got_data : List Nat) (ga v : Nat)
    (hk1 : res.kind ≠ TargetResolutionKind.IFunc)
    (hk2 : res.kind ≠ TargetResolutionKind.GotTlsOffset)
    (hga : res.got_address = some ga)
    (hle : got.address ≤ ga) (hlt : ga < 2 ^ 64)
    (hbound : ga - got.address + 8 ≤ got_data.length)
    (hv : res.value = ResolutionValue.Absolute v ∨ res.value = ResolutionValue.Address v) :
    ((validate_resolution name res got got_data = .ok ()) ↔
        readU64LE got_data (ga - got.address) = v)
    ∧ (readU64LE got_data (ga - got.address) ≠ v →
        validate_resolution name res got got_data =
          .error (ValidationError.Mismatch res.kind name v ga
            (readU64LE got_data (ga - got.address)))) := by
  have hcond : ¬(res.kind = TargetResolutionKind.IFunc ∨
      res.kind = TargetResolutionKind.GotTlsOffset) := not_or.mpr ⟨hk1, hk2⟩
  have hw : wrappingSub64 ga got.address = ga - got.address := wrappingSub64_eq hle hlt
  unfold validate_resolution
  rw [if_neg hcond, hga]
  simp only [hw]
  rw [if_neg (by omega)]
  rcases hv with hv | hv <;> rw [hv] <;> dsimp only <;>
    by_cases hr : readU64LE got_data (ga - got.address) = v
  · rw [if_neg (fun hx => hx hr.symm)]
    exact ⟨⟨fun _ => hr, fun _ => rfl⟩, fun hcontra => absurd hr hcontra⟩
  · rw [if_pos (fun hx => hr hx.symm)]
    exact ⟨⟨fun hx => absurd hx (fun hy => Except.noConfusion hy), fun hx => absurd hx hr⟩,
      fun _ => rfl⟩
  · rw [if_neg (fun hx => hx hr.symm)]
    exact ⟨⟨fun _ => hr, fun _ => rfl⟩, fun hcontra => absurd hr hcontra⟩
  · rw [if_pos (fun hx => hr hx.symm)]
    exact ⟨⟨fun hx => absurd hx (fun hy => Except.noConfusion hy), fun hx => absurd hx hr⟩,
      fun _ => rfl⟩

/-- C1 witness: a `Normal` resolution whose GOT slot (offset 8 within `.got`)
holds exactly the `Address` value 0x1234 little-endian validates. -/
theorem validate_resolution_spec_witness :
    validate_resolution [97] ⟨.Normal, some 0x1008, .Address 0x1234⟩
      ⟨0x1000, [9, 9, 9, 9, 9, 9, 9, 9, 0x34, 0x12, 0, 0, 0, 0, 0, 0]⟩
      [9, 9, 9, 9, 9, 9, 9, 9, 0x34, 0x12, 0, 0, 0, 0, 0, 0] = .ok () :=
  (validate_resolution_spec [97] ⟨.Normal, some 0x1008, .Address 0x1234⟩
    ⟨0x1000, [9, 9, 9, 9, 9, 9, 9, 9, 0x34, 0x12, 0, 0, 0, 0, 0, 0]⟩
    [9, 9, 9, 9, 9, 9, 9, 9, 0x34, 0x12, 0, 0, 0, 0, 0, 0] 0x1008 0x1234
    (by decide) (by decide) rfl (by decide) (by decide) (by decide)
    (Or.inr rfl)).1.mpr (by decide)

/-- C2 counterexample: `Args::parse` accepts `-shared` without `-pie`,
producing a `SharedObject` (position-independent) output whose
`base_address()` is 0x400000, not 0 — `base_address` depends only on the
`pie` flag, not on the output kind. -/
theorem base_address_shared_nonpie_counterexample :
    (parseArgs false 1 ["wild".data, "-shared".data, "-o".data, "out".data]).map
        (fun a => (a.base_address, a.output_kind, a.pie)) =
      .ok (0x400000, OutputKind.SharedObject, false)
    ∧ (0x400000 : Nat) ≠ 0 := ⟨rfl, by decide⟩

/-- C2 (amended): `base_address()` returns the fixed nonzero constant
0x400000 exactly when PIE is disabled and 0 exactly when PIE is enabled,
regardless of the output kind; hence `base_address() = 0` iff `pie`. -/
theorem base_address_policy (a : Args) :
    (a.base_address = 0 ↔ a.pie = true)
    ∧ (a.base_address = NON_PIE_START_MEM_ADDRESS ↔ a.pie = false) := by
  cases h : a.pie <;>
    simp [Args.base_address, NON_PIE_START_MEM_ADDRESS, h]

/-- C3: `RelocationKindInfo::from_raw` is total: it succeeds exactly on the
codes of the supported x86-64 table, and for every code outside the table it
fails with an error naming the numeric code — never a silent skip or a
default kind. -/
theorem from_raw_supported_table (r_type : Nat) :
    ((∃ info, RelocationKindInfo.from_raw r_type = .ok info) ↔
      r_type ∈ supportedRelocationTypes)
    ∧ (r_type ∉ supportedRelocationTypes →
        RelocationKindInfo.from_raw r_type =
          .error ("Unsupported relocation type " ++ toString r_type)) := by
  by_cases hm : r_type ∈ supportedRelocationTypes
  · have hns := hm
    simp only [supportedRelocationTypes, R_X86_64_NONE, R_X86_64_64, R_X86_64_PC32,
      R_X86_64_GOT32, R_X86_64_PLT32, R_X86_64_GOTPCREL, R_X86_64_32, R_X86_64_32S,
      R_X86_64_16, R_X86_64_PC16, R_X86_64_8, R_X86_64_PC8, R_X86_64_TLSGD,
      R_X86_64_TLSLD, R_X86_64_DTPOFF32, R_X86_64_GOTTPOFF, R_X86_64_TPOFF32,
      R_X86_64_GOTPCRELX, R_X86_64_REX_GOTPCRELX, List.mem_cons, List.mem_nil_iff,
      or_false] at hns
    rcases hns with rfl | rfl | rfl | rfl | rfl | rfl | rfl | rfl | rfl | rfl | rfl |
      rfl | rfl | rfl | rfl | rfl | rfl | rfl | rfl
    all_goals exact ⟨⟨fun _ => hm, fun _ => ⟨_, rfl⟩⟩, fun hn => absurd hm hn⟩
  · rw [from_raw_unsupported hm]
    refine ⟨⟨?_, fun hmem => absurd hmem hm⟩, fun _ => rfl⟩
    rintro ⟨info, hinfo⟩
    exact Except.noConfusion hinfo

/-- C3 witness: code 99999 is outside the table and is rejected naming the
code. -/
theorem from_raw_supported_table_witness :
    RelocationKindInfo.from_raw 99999 =
      .error ("Unsupported relocation type " ++ toString 99999) :=
  (from_raw_supported_table 99999).2 (by decide)

/-- C4 counterexample: the claim asserts every accepted code's byte width is
1, 2, 4 or 8; but `R_X86_64_NONE` (code 0) is accepted with byte width 0. -/
theorem from_raw_byte_size_counterexample :
    ¬(∀ (r_type : Nat) (info : RelocationKindInfo),
        RelocationKindInfo.from_raw r_type = .ok info →
          info.byte_size ∈ [1, 2, 4, 8]) := by
  intro h
  exact absurd (h 0 ⟨.None, 0⟩ rfl) (by decide)

/-- C4 (amended): every code accepted by `from_raw` has byte width 1, 2, 4 or
8, except `R_X86_64_NONE` (code 0), whose kind is `None` and whose byte width
is 0. -/
theorem from_raw_byte_size (r_type : Nat) (info : RelocationKindInfo)
    (h : RelocationKindInfo.from_raw r_type = .ok info) :
    info.byte_size ∈ [1, 2, 4, 8] ∨
      (r_type = R_X86_64_NONE ∧ info.byte_size = 0 ∧ info.kind = RelocationKind.None) := by
  by_cases hm : r_type ∈ supportedRelocationTypes
  · have hns := hm
    simp only [supportedRelocationTypes, R_X86_64_NONE, R_X86_64_64, R_X86_64_PC32,
      R_X86_64_GOT32, R_X86_64_PLT32, R_X86_64_GOTPCREL, R_X86_64_32, R_X86_64_32S,
      R_X86_64_16, R_X86_64_PC16, R_X86_64_8, R_X86_64_PC8, R_X86_64_TLSGD,
      R_X86_64_TLSLD, R_X86_64_DTPOFF32, R_X86_64_GOTTPOFF, R_X86_64_TPOFF32,
      R_X86_64_GOTPCRELX, R_X86_64_REX_GOTPCRELX, List.mem_cons, List.mem_nil_iff,
      or_false] at hns
    rcases hns with rfl | rfl | rfl | rfl | rfl | rfl | rfl | rfl | rfl | rfl | rfl |
      rfl | rfl | rfl | rfl | rfl | rfl | rfl | rfl
    all_goals injection h with hinfo
    all_goals subst hinfo
    all_goals first
      | (left; decide)
      | (right; exact ⟨rfl, rfl, rfl⟩)
  · rw [from_raw_unsupported hm] at h
    exact Except.noConfusion h

/-- C4 witness: code 1 (`R_X86_64_64`) is accepted with byte width 8. -/
theorem from_raw_byte_size_witness :
    (⟨RelocationKind.Absolute, 8⟩ : RelocationKindInfo).byte_size ∈ [1, 2, 4, 8] ∨
      (R_X86_64_64 = R_X86_64_NONE ∧
        (⟨RelocationKind.Absolute, 8⟩ : RelocationKindInfo).byte_size = 0 ∧
        (⟨RelocationKind.Absolute, 8⟩ : RelocationKindInfo).kind = RelocationKind.None) :=
  from_raw_byte_size R_X86_64_64 ⟨RelocationKind.Absolute, 8⟩ rfl

/-- C5: `validate_object` returns `Ok` without inspecting any GOT data
exactly when the output is relocatable, and performs the GOT checks only for
non-relocatable outputs (in particular it then demands a `.got` section); the
relocatability predicate is `pie || output_kind != StaticExecutable`. -/
theorem validate_object_relocatable_skip (a : Args) (ob : ElfObject)
    (gres : List (List Nat × Option Resolution)) (fls : List FileLayout) :
    (a.is_relocatable = true ↔
      (a.pie = true ∨ a.output_kind ≠ OutputKind.StaticExecutable))
    ∧ (a.is_relocatable = true → validate_object ob ⟨a, gres, fls⟩ = .ok ())
    ∧ (a.is_relocatable = false →
        validate_object ⟨none⟩ ⟨a, gres, fls⟩ = .error ValidationError.MissingGot) := by
  refine ⟨?_, ?_, ?_⟩
  · cases hp : a.pie <;> cases hk : a.output_kind <;>
      simp [Args.is_relocatable, hp, hk] <;> decide
  · intro h
    simp [validate_object, h]
  · intro h
    simp [validate_object, h]

/-- C5 witness: a non-PIE shared object is relocatable, so validation is
skipped even with no `.got` present; a non-PIE static executable is not, and
validation then fails on the missing `.got`. -/
theorem validate_object_relocatable_skip_witness :
    validate_object ⟨none⟩ ⟨sampleArgs OutputKind.SharedObject false, [], []⟩ = .ok ()
    ∧ validate_object ⟨none⟩ ⟨sampleArgs OutputKind.StaticExecutable false, [], []⟩ =
        .error ValidationError.MissingGot :=
  ⟨(validate_object_relocatable_skip (sampleArgs OutputKind.SharedObject false)
      ⟨none⟩ [] []).2.1 (by decide),
   (validate_object_relocatable_skip (sampleArgs OutputKind.StaticExecutable false)
      ⟨none⟩ [] []).2.2 (by decide)⟩

/-- C6: `tls_mode()` returns `LocalExec` exactly when the output kind is
`StaticExecutable`, and `Preserve` for `DynamicExecutable` and `SharedObject`
outputs. -/
theorem tls_mode_policy (a : Args) :
    (a.tls_mode = TlsMode.LocalExec ↔ a.output_kind = OutputKind.StaticExecutable)
    ∧ ((a.output_kind = OutputKind.DynamicExecutable ∨
        a.output_kind = OutputKind.SharedObject) → a.tls_mode = TlsMode.Preserve) := by
  cases hk : a.output_kind <;> simp [Args.tls_mode, hk]

/-- C6 witness: a `SharedObject` configuration gets `Preserve`. -/
theorem tls_mode_policy_witness :
    (sampleArgs OutputKind.SharedObject false).tls_mode = TlsMode.Preserve :=
  (tls_mode_policy (sampleArgs OutputKind.SharedObject false)).2 (Or.inr rfl)

/-- C7: modifier capture.  The initial modifier state is
`{as_needed := false, allow_shared := true}` and the parse loop starts with
exactly that state on the stack; `-static`/`-Bstatic` clear and `-Bdynamic`
sets `allow_shared` in the top stack entry, affecting only subsequently
parsed inputs; a `-l<name>` or bare-path input records the top entry at the
moment it is processed; and a successful loop run only ever appends inputs,
so an input's recorded modifiers are independent of all later arguments. -/
theorem modifiers_captured_per_input :
    (Modifiers.default = { as_needed := false, allow_shared := true })
    ∧ (∀ v, (initState v).modifier_stack = [Modifiers.default])
    ∧ (∀ (st : ParseState) (m : Modifiers) (ms : List Modifiers) (la : Option (List Char)),
        st.modifier_stack = m :: ms →
        step1 st "-static".data la =
          .ok ({ st with modifier_stack := { m with allow_shared := false } :: ms }, false)
        ∧ step1 st "-Bstatic".data la =
          .ok ({ st with modifier_stack := { m with allow_shared := false } :: ms }, false)
        ∧ step1 st "-Bdynamic".data la =
          .ok ({ st with modifier_stack := { m with allow_shared := true } :: ms }, false)
        ∧ (∀ name, step1 st ('-' :: 'l' :: name) la =
            .ok ({ st with inputs := st.inputs ++
              [{ spec := InputSpec.Lib name, search_first := none, modifiers := m }] },
              false))
        ∧ (∀ (c : Char) (cs : List Char), c ≠ '-' →
            step1 st (c :: cs) la =
              .ok ({ st with inputs := st.inputs ++
                [{ spec := InputSpec.File (c :: cs), search_first := none,
                   modifiers := m }] }, false)))
    ∧ (∀ (st : ParseState) (l : List (List Char)) (st' : ParseState),
        parseLoop st l = .ok st' → ∃ extra, st'.inputs = st.inputs ++ extra) := by
  refine ⟨rfl, fun v => rfl, ?_, fun st l st' h => parseLoop_inputs_append h⟩
  intro st m ms la hst
  exact ⟨step1_static_eq hst la, step1_Bstatic_eq hst la, step1_Bdynamic_eq hst la,
    fun name => step1_lib_eq hst name la,
    fun c cs hc => step1_file_eq hst hc cs la⟩

/-- C7 witness: from the initial state, `-lfoo` records a library input with
the default modifiers. -/
theorem modifiers_captured_per_input_witness :
    step1 (initState false) ('-' :: 'l' :: "foo".data) none =
      .ok ({ initState false with inputs := (initState false).inputs ++
        [{ spec := InputSpec.Lib "foo".data, search_first := none,
           modifiers := Modifiers.default }] }, false) :=
  (modifiers_captured_per_input.2.2.1 (initState false) Modifiers.default [] none
    rfl).2.2.2.1 "foo".data

/-- C8 counterexample: the claim asserts `num_threads = 1` whenever a
`--debug-fuel=` budget is supplied, regardless of other arguments such as
`--threads=`.  But a `--threads=4` parsed after `--debug-fuel=5` overrides
the forced single thread: the parse succeeds with fuel set and 4 threads. -/
theorem debug_fuel_threads_counterexample :
    (parseArgs false 7 ["wild".data, "--debug-fuel=5".data, "--threads=4".data,
        "-o".data, "out".data]).map (fun a => (a.num_threads, a.debug_fuel)) =
      .ok (4, some 5) := rfl

/-- C8 (amended): processing `--debug-fuel=<n>` sets the thread count to one
at that point; over the rest of the parse it stays one provided no later
`--threads=` argument is processed, and the finished `Args` then has
`num_threads = 1`. -/
theorem debug_fuel_forces_single_thread :
    (∀ (st : ParseState) (la : Option (List Char)) (s : List Char) (n : Int),
        parseInt? s = some n →
        step1 st ("--debug-fuel=".data ++ s) la =
          .ok ({ st with debug_fuel := some n, num_threads := some 1 }, false))
    ∧ (∀ (st : ParseState) (l : List (List Char)) (st' : ParseState),
        st.num_threads = some 1 →
        (∀ a ∈ l, stripPrefixChars "--threads=".data a = none) →
        parseLoop st l = .ok st' → st'.num_threads = some 1)
    ∧ (∀ (d : Nat) (st : ParseState) (a : Args),
        st.num_threads = some 1 → finishParse d st = .ok a → a.num_threads = 1) := by
  refine ⟨?_, ?_, ?_⟩
  · intro st la s n hs
    rw [step1_debug_fuel_eq, hs]
  · intro st l st' h1 hth h
    exact parseLoop_threads_one h hth h1
  · intro d st a h1 h
    unfold finishParse at h
    cases ho : st.output with
    | none => rw [ho] at h; exact Except.noConfusion h
    | some out =>
      rw [ho] at h
      injection h with ha
      subst ha
      simp [h1]

/-- C8 witness: from the initial state, `--debug-fuel=5` sets fuel 5 and one
thread. -/
theorem debug_fuel_forces_single_thread_witness :
    step1 (initState false) ("--debug-fuel=".data ++ "5".data) none =
      .ok ({ initState false with debug_fuel := some 5, num_threads := some 1 },
        false) :=
  debug_fuel_forces_single_thread.1 (initState false) none "5".data 5 (by decide)

/-- C9: processing a `--hash-style=<style>` option fails naming the style
exactly when the style is not `gnu`; `--hash-style=gnu` is accepted leaving
the state unchanged; a processing error is the loop's error and a loop error
is the parse's error, so the failure is never downgraded or ignored. -/
theorem hash_style_gnu_only :
    (∀ (st : ParseState) (la : Option (List Char)) (s : List Char), s ≠ "gnu".data →
        step1 st ("--hash-style=".data ++ s) la =
          .error ("Unsupported hash-style `" ++ String.mk s ++ "`"))
    ∧ (∀ (st : ParseState) (la : Option (List Char)),
        step1 st ("--hash-style=".data ++ "gnu".data) la = .ok (st, false))
    ∧ (∀ (st : ParseState) (a : List Char) (rest : List (List Char)) (e : String),
        step1 st a rest.head? = .error e → parseLoop st (a :: rest) = .error e)
    ∧ (∀ (v : Bool) (d : Nat) (argv : List (List Char)) (e : String),
        parseLoop (initState v) argv.tail = .error e → parseArgs v d argv = .error e) := by
  refine ⟨?_, fun st la => rfl, ?_, ?_⟩
  · intro st la s hs
    rw [step1_hash_style_eq, if_pos hs]
  · intro st a rest e hs
    exact parseLoop_error hs
  · intro v d argv e h
    exact parseArgs_error h

/-- C9 witness: `--hash-style=sysv` is rejected naming the style, and a full
parse with it fails with that error while `--hash-style=gnu` parses. -/
theorem hash_style_gnu_only_witness :
    step1 (initState false) ("--hash-style=".data ++ "sysv".data) none =
      .error ("Unsupported hash-style `" ++ String.mk "sysv".data ++ "`")
    ∧ parseArgs false 1 ["wild".data, "--hash-style=sysv".data, "-o".data, "out".data] =
        .error "Unsupported hash-style `sysv`"
    ∧ (parseArgs false 1 ["wild".data, "--hash-style=gnu".data, "-o".data,
        "out".data]).map (fun a => a.output) = .ok "out".data :=
  ⟨hash_style_gnu_only.1 (initState false) none "sysv".data (by decide), rfl, rfl⟩

/-- C10 counterexample: the claim asserts the parse errors with "Mismatched
--pop-state" exactly when some prefix of the argument list has more
`--pop-state` than `--push-state` occurrences.  But a `--pop-state` consumed
as the (discarded) value of `-z` never reaches the modifier stack: the prefix
`-z --pop-state` has one pop and no push, yet the parse succeeds. -/
theorem pop_state_swallowed_counterexample :
    ((parseArgs false 1 ["wild".data, "-z".data, "--pop-state".data, "-o".data,
        "out".data]).map (fun a => a.output) = .ok "out".data)
    ∧ List.count "--pop-state".data
        (List.take 2 ["-z".data, "--pop-state".data, "-o".data, "out".data]) >
      List.count "--push-state".data
        (List.take 2 ["-z".data, "--pop-state".data, "-o".data, "out".data]) :=
  ⟨rfl, by decide⟩

/-- C10 (amended): among arguments processed as flags, `--pop-state` fails
with "Mismatched --pop-state" exactly when pops exceed pushes: processing
`--pop-state` errors on a one-entry stack and pops a larger stack, processing
`--push-state` pushes, and no other processed argument changes the stack
length; the loop starts with a one-entry stack, and on success the stack is
nonempty at every step (so each input captures well-defined modifiers). -/
theorem pop_state_matching :
    (∀ (st : ParseState) (la : Option (List Char)) (m : Modifiers),
        st.modifier_stack = [m] →
        step1 st "--pop-state".data la = .error "Mismatched --pop-state")
    ∧ (∀ (st : ParseState) (la : Option (List Char)) (m m2 : Modifiers)
        (ms : List Modifiers), st.modifier_stack = m :: m2 :: ms →
        step1 st "--pop-state".data la = .ok ({ st with modifier_stack := m2 :: ms }, false))
    ∧ (∀ (st : ParseState) (la : Option (List Char)) (m : Modifiers)
        (ms : List Modifiers), st.modifier_stack = m :: ms →
        step1 st "--push-state".data la = .ok ({ st with modifier_stack := m :: m :: ms }, false))
    ∧ (∀ (st : ParseState) (a : List Char) (la : Option (List Char)) (st2 : ParseState)
        (b : Bool), step1 st a la = .ok (st2, b) →
        a ≠ "--push-state".data → a ≠ "--pop-state".data →
        st2.modifier_stack.length = st.modifier_stack.length)
    ∧ (∀ v, (initState v).modifier_stack.length = 1)
    ∧ (∀ (st : ParseState) (l : List (List Char)) (st' : ParseState),
        st.modifier_stack ≠ [] → parseLoop st l = .ok st' →
        st'.modifier_stack ≠ []) := by
  refine ⟨fun st la m hst => step1_pop_err hst la,
    fun st la m m2 ms hst => step1_pop_ok hst la,
    fun st la m ms hst => step1_push_eq hst la, ?_, fun v => rfl,
    fun st l st' hne h => parseLoop_stack_ne_nil h hne⟩
  intro st a la st2 b h hpush hpop
  rcases (step1_effects h).2.2.2 with he | he | he
  · exact he
  · exact absurd he hpush
  · exact absurd he hpop

/-- C10 witness: from the initial one-entry stack, `--pop-state` fails with
the mismatch error. -/
theorem pop_state_matching_witness :
    step1 (initState false) "--pop-state".data none = .error "Mismatched --pop-state" :=
  pop_state_matching.1 (initState false) none Modifiers.default rfl

end Wild
